import Mathlib

/-!
Verification development for `streamlit_detection_OP.py`, a Streamlit app that
runs YOLO object detection/tracking over a still image, an uploaded video
file, or a webcam stream.

Shallow embedding conventions:
* Frames and uploaded image byte buffers are abstracted as `Nat` payloads.
* The black-box model capability (`self.model(...)` / `self.model.track(...)`
  followed by `results[0].plot()`) is a parameter `modelOut : ModelCall → Frame`
  producing the annotated frame; the orchestrator only records which call it
  makes and pipes the rendered frame to the display sink.
* `cv2.VideoCapture.read()` returns a pair `(success, frame)`; the environment
  behind the capture (the actual video) is a `List ReadOutcome` whose
  end-of-file and read-error outcomes are both collapsed by `cv2Read` to
  `success = false`, exactly as OpenCV does.  Reading past the end of the
  modelled outcome list also yields `success = false`.
* `st.stop()` raises Streamlit's `StopException`, terminating the script run;
  it is modelled by ending the run with `stStopCalled = true`.
* Python attributes that a code path may read before any assignment
  (`self.image_data`) are modelled as `Option`, with `none` meaning "attribute
  was never assigned", so reading it raises `AttributeError`.
* Floating thresholds are modelled as `ℚ`; no claim exercises float rounding,
  only pass-through of the slider values.
-/

namespace StreamlitDetection

abbrev Frame := Nat

abbrev ImgBytes := Nat

/-- `self.vid_file_name` is either a string path (`""`, `"uploaded_video.mp4"`)
or the webcam device index `0` (line 170). -/
inductive VidName
  | str (s : String)
  | idx (n : Nat)
deriving DecidableEq

/-- The attributes of the `Inference` object that the claims touch.
`source`/`enable_trk` start out as Python `None`/`False` in `__init__` and are
overwritten by the sidebar with the selectbox/radio strings; both "not yet a
string" initial values are modelled as `none`. -/
structure InferenceState where
  source : Option String
  enable_trk : Option String
  conf : ℚ
  iou : ℚ
  selected_ind : List Nat
  image_data : Option ImgBytes
  vid_file_name : VidName
  model_path : Option String
deriving DecidableEq

/-- `Inference.__init__` (lines 85-111): defaults `conf = 0.25`, `iou = 0.45`,
`selected_ind = []`; `self.image_data` is *not* assigned here; `model_path` is
taken from the `model` kwarg when it is not `None`. -/
def initState (model : Option String) : InferenceState :=
  { source := none
    enable_trk := none
    conf := 1 / 4          -- 0.25
    iou := 9 / 20          -- 0.45
    selected_ind := []
    image_data := none
    vid_file_name := VidName.str ""
    model_path := model }

/-- The sidebar widget values a user has set when Start is pressed. -/
structure UIInputs where
  source : String
  trk : String
  conf : ℚ
  iou : ℚ

/-- `Inference.sidebar` (lines 132-154): stores the source selectbox, the
tracking radio ("Yes"/"No") and the two sliders.  It never touches
`selected_ind` — the upstream class multiselect is absent from this file. -/
def sidebar (ui : UIInputs) (s : InferenceState) : InferenceState :=
  { s with
    source := some ui.source
    enable_trk := some ui.trk
    conf := ui.conf
    iou := ui.iou }

/-- `Inference.source_upload` (lines 157-175): resets `vid_file_name` to `""`,
then per source kind stores the uploaded video path, the webcam index `0`, or
(only when an image upload is present) assigns `self.image_data`. -/
def source_upload (vid_upload : Option Nat) (img_upload : Option ImgBytes)
    (s : InferenceState) : InferenceState :=
  let s0 := { s with vid_file_name := VidName.str "" }
  if s0.source = some "video" then
    match vid_upload with
    | some _ => { s0 with vid_file_name := VidName.str "uploaded_video.mp4" }
    | none => s0
  else if s0.source = some "webcam" then
    { s0 with vid_file_name := VidName.idx 0 }
  else if s0.source = some "image" then
    match img_upload with
    | some f => { s0 with image_data := some f }
    | none => s0
  else s0

/-- One call made to the model capability: `self.model.track(frame, conf=...,
iou=..., classes=..., persist=True)` or `self.model(frame, conf=..., iou=...,
classes=...)` (lines 227-230; line 208 for the image branch). -/
inductive ModelCall
  | track (frame : Frame) (conf iou : ℚ) (classes : List Nat) (persist : Bool)
  | detect (frame : Frame) (conf iou : ℚ) (classes : List Nat)
deriving DecidableEq

/-- The `classes=` argument the orchestrator handed to the model capability. -/
def ModelCall.classesArg : ModelCall → List Nat
  | .track _ _ _ cs _ => cs
  | .detect _ _ _ cs => cs

/-- Lines 227-230: the per-frame mode selection inside the stream loop. -/
def inferenceCall (s : InferenceState) (frame : Frame) : ModelCall :=
  if s.enable_trk = some "Yes" then
    ModelCall.track frame s.conf s.iou s.selected_ind true
  else
    ModelCall.detect frame s.conf s.iou s.selected_ind

/-- What the environment behind `cv2.VideoCapture` would deliver on one read:
a decoded frame, end of the finite stream, or an I/O read error. -/
inductive ReadOutcome
  | ok (f : Frame)
  | eof
  | readErr
deriving DecidableEq

/-- `cap.read()` (line 221): OpenCV returns `(success, frame)` and collapses
end-of-stream and read errors to the same `success = false` (frame `None`,
modelled by the junk payload `0`). -/
def cv2Read : ReadOutcome → Bool × Frame
  | .ok f => (true, f)
  | .eof => (false, 0)
  | .readErr => (false, 0)

/-- Observable trace of one press of Start: display-sink emissions (original,
annotated), the model calls made, `st.warning`s, `st.error`s, how many times
`cap.release()` ran, whether the run ended through `st.stop()`, and whether
the Stop button was created (line 216). -/
structure LoopResult where
  emissions : List (Frame × Frame)
  calls : List ModelCall
  warnings : List String
  errors : List String
  releases : Nat
  stStopCalled : Bool
  stopButtonCreated : Bool
deriving DecidableEq

/-- Loop exit taken when `cap.read()` reports `success = false`
(lines 222-224): `st.warning("Failed to read frame.")`, `break`, then the
final `cap.release()` on line 241. -/
def readFailExit : LoopResult :=
  { emissions := []
    calls := []
    warnings := ["Failed to read frame."]
    errors := []
    releases := 1
    stStopCalled := false
    stopButtonCreated := true }

/-- The `while cap.isOpened()` loop body (lines 220-239) over the remaining
read outcomes, for an opened capture.  Per iteration: read; on failure warn
and break (final release accounted in the exit record); otherwise run
inference (lines 227-230), render (line 232), check the Stop button captured
before the loop (lines 234-236: `cap.release()` then `st.stop()`), and only
then emit the (original, annotated) pair (lines 238-239). -/
def videoLoop (modelOut : ModelCall → Frame) (s : InferenceState)
    (stop_button : Bool) : List ReadOutcome → LoopResult
  | [] => readFailExit
  | r :: rest =>
    match cv2Read r with
    | (false, _) => readFailExit
    | (true, frame) =>
      let call := inferenceCall s frame
      let annotated := modelOut call
      if stop_button then
        { emissions := []
          calls := [call]
          warnings := []
          errors := []
          releases := 1
          stStopCalled := true
          stopButtonCreated := true }
      else
        let res := videoLoop modelOut s stop_button rest
        { res with
          emissions := (frame, annotated) :: res.emissions
          calls := call :: res.calls }

/-- The whole video/webcam branch of the Start handler (lines 215-241):
create the Stop button, open the capture (`opened` is the environment's
answer to `cap.isOpened()`), show an error if it failed to open, run the
loop, and perform the trailing `cap.release()` (line 241; it also runs when
the loop never started because the capture was not opened). -/
def videoRun (modelOut : ModelCall → Frame) (s : InferenceState)
    (stop_button opened : Bool) (reads : List ReadOutcome) : LoopResult :=
  if opened then
    videoLoop modelOut s stop_button reads
  else
    { emissions := []
      calls := []
      warnings := []
      errors := ["Could not open video/webcam."]
      releases := 1
      stStopCalled := false
      stopButtonCreated := true }

/-- The Python exceptions the embedded paths can raise. -/
inductive PyErr
  | attributeError
deriving DecidableEq

/-- The body of `if self.st.sidebar.button("Start"):` (lines 200-242).
On the image branch (lines 201-213) the code reads `self.image_data`
unconditionally — an `AttributeError` if `source_upload` never assigned it —
decodes it (`decode` stands for `cv2.imdecode`, total here: decode failure is
outside the modelled claims), runs plain detection (line 208, the tracking
flag is not consulted), and emits exactly one (original, annotated) pair;
no Stop button exists on this path and no capture is opened. -/
def startRun (decode : ImgBytes → Frame) (modelOut : ModelCall → Frame)
    (s : InferenceState) (opened stop_button : Bool)
    (reads : List ReadOutcome) : Except PyErr LoopResult :=
  if s.source = some "image" then
    match s.image_data with
    | none => Except.error PyErr.attributeError
    | some img =>
      -- `if self.image_data:` — a present UploadedFile object is always truthy
      let image := decode img
      let call := ModelCall.detect image s.conf s.iou s.selected_ind
      Except.ok
        { emissions := [(image, modelOut call)]
          calls := [call]
          warnings := []
          errors := []
          releases := 0
          stStopCalled := false
          stopButtonCreated := false }
  else if s.source = some "video" ∨ s.source = some "webcam" then
    Except.ok (videoRun modelOut s stop_button opened reads)
  else
    Except.ok
      { emissions := []
        calls := []
        warnings := []
        errors := []
        releases := 0
        stStopCalled := false
        stopButtonCreated := false }

/-- Lines 20-25: the fixed table of model names to Google Drive file ids. -/
def GDRIVE_MODELS : List (String × String) :=
  [("YOLO11m_baseline", "1RYJiKwAV2Ueg05_W9U20Y_h0D5SYDFpC"),
   ("YOLO11m_CA", "1-vh_zLz9OMVCO_6CueKx_MSVVJrCrNhF"),
   ("YOLO11m_ECA", "1ZdrB2IcubfM6uJsio4dEOBEcKzlae6-S"),
   ("YOLO11m_CBAM", "1jKIStEJRGLGhvEPtAx3tRf8O4VLLwwdB")]

/-- Line 30: `model_path = f"models/{model_name}.pt"`. -/
def modelPath (model_name : String) : String :=
  "models/" ++ model_name ++ ".pt"

/-- Point update of the modelled filesystem (path ↦ size in bytes;
`none` = file absent). -/
def fsUpdate (fs : String → Option Nat) (p : String) (v : Option Nat) :
    String → Option Nat :=
  fun q => if q = p then v else fs q

/-- Observable outcome of `download_from_gdrive`: resulting filesystem, how
many times the `wget` fetch command ran, the console prints, and whether an
exception propagated to the caller (the inner `try/except` swallows all
exceptions of the fetch/validate block, so this is always `false`). -/
structure DlTrace where
  fs : String → Option Nat
  fetches : Nat
  console : List String
  raised : Bool

/-- `download_from_gdrive` (lines 28-52).  `fetchSize` is the environment's
answer to running the `wget` command: the size of the file it leaves at
`model_path` (`some 0` for the empty file `wget -O` leaves on a failed fetch),
or `none` when no file was created at all.  If the artifact already exists,
nothing is fetched.  Otherwise, after the fetch, a file larger than 10000
bytes is accepted; a smaller one is removed by `os.remove` (line 48); when no
file exists `os.remove` raises `FileNotFoundError`, which the `except` clause
catches and reports as a "Download error" print.  The function never raises
and returns `None` in every case. -/
def download_from_gdrive (fetchSize : Option Nat) (fs : String → Option Nat)
    (file_id model_name : String) : DlTrace :=
  match fs (modelPath model_name) with
  | some _ =>
    { fs := fs
      fetches := 0
      console := ["already exists. Skipping download."]
      raised := false }
  | none =>
    match fetchSize with
    | some n =>
      if n > 10000 then
        { fs := fsUpdate fs (modelPath model_name) (some n)
          fetches := 1
          console := ["Downloading", "Successfully downloaded"]
          raised := false }
      else
        { fs := fsUpdate fs (modelPath model_name) none
          fetches := 1
          console := ["Downloading", "download failed or incomplete. Try manual download."]
          raised := false }
    | none =>
      { fs := fsUpdate fs (modelPath model_name) none
        fetches := 1
        console := ["Downloading", "Download error"]
        raised := false }

/-- Observable outcome of `Inference.configure`: the resolver trace, the
selectbox choice, and the path handed unconditionally to the `YOLO(...)`
constructor on line 188 (the load is attempted whatever the resolver did). -/
structure ConfigureTrace where
  dl : DlTrace
  selected : String
  load_path : String

/-- The Google Drive id looked up for the selected model (line 185,
`GDRIVE_MODELS[selected_model]`). -/
def gdriveId (name : String) : String :=
  ((GDRIVE_MODELS.find? (fun p => p.1 = name)).map (fun p => p.2)).getD ""

/-- `Inference.configure` (lines 178-190): builds `available_models` from the
`GDRIVE_MODELS` keys, takes the sidebar selectbox choice (`ui_choice` is the
index the user picked; the selectbox defaults to the first entry), ensures
the artifact is downloaded, and then loads `YOLO(f"models/{selected}.pt")`.
It receives the `Inference` object `s` but consults none of its fields for
the selection — in particular `s.model_path` (the CLI argument) is unused. -/
def configure (fetchSize : Option Nat) (fs : String → Option Nat)
    (ui_choice : Nat) (s : InferenceState) : ConfigureTrace :=
  let available_models := GDRIVE_MODELS.map Prod.fst
  let selected_model := available_models.getD ui_choice "YOLO11m_baseline"
  let dl := download_from_gdrive fetchSize fs (gdriveId selected_model) selected_model
  { dl := dl
    selected := selected_model
    load_path := modelPath selected_model }

/-- Lines 246-253, the `__main__` entry: `model = sys.argv[1] if args > 1
else None`, then `Inference(model=model).inference()`. -/
def mainModelArg (argv : List String) : Option String :=
  if argv.length > 1 then some (argv.getD 1 "") else none

/-- Modelled from the spec and the model capability's contract (the model is
the external ultralytics library, not part of this repository; spec §3 treats
it as a black box): the class filter of detection post-processing keeps every
detection when *no* class list is supplied (`none`, Python `classes=None`),
and keeps exactly the detections whose class id occurs in the supplied list
otherwise.  Detections are abbreviated to their class ids. -/
def classFilter : Option (List Nat) → List Nat → List Nat
  | none, dets => dets
  | some cs, dets => dets.filter (fun c => cs.contains c)

/-! ### Helper lemmas and concrete fixtures -/

/-- A run configuration as the sidebar leaves it for a video upload:
source "video", tracking off, default sliders, a video file uploaded. -/
def cfgVideo : InferenceState :=
  source_upload (some 0) none (sidebar ⟨"video", "No", 1 / 4, 9 / 20⟩ (initState none))

/-- Running the stream loop with no Stop signal over `frames` readable frames
followed by any unsuccessful read (`cv2Read t = (false, 0)`, i.e. EOF or a
read error): every frame is inferred on and emitted in order, then the loop
warns, breaks and releases. -/
theorem videoLoop_ok_append (m : ModelCall → Frame) (s : InferenceState)
    (frames : List Frame) (t : ReadOutcome) (ht : cv2Read t = (false, 0)) :
    videoLoop m s false (frames.map ReadOutcome.ok ++ [t]) =
      { emissions := frames.map (fun f => (f, m (inferenceCall s f)))
        calls := frames.map (inferenceCall s)
        warnings := ["Failed to read frame."]
        errors := []
        releases := 1
        stStopCalled := false
        stopButtonCreated := true } := by
  induction frames with
  | nil => simp [videoLoop, ht, readFailExit]
  | cons f fs ih => simp [videoLoop, cv2Read, ih]

/-! ### Claim theorems -/

/-- **C2.** For every run over a Video or Webcam source — any stop-button
state, any capture-open outcome, any sequence of reads the environment
delivers — `cap.release()` runs exactly once: once at line 241 after a
read-failure `break` (or when the capture never opened), and once at
line 235 on the Stop path, where `st.stop()` prevents line 241 from running.
The handle is never leaked and never double-released. -/
theorem videoRun_releases_exactly_once (m : ModelCall → Frame)
    (s : InferenceState) (stop_button opened : Bool)
    (reads : List ReadOutcome) :
    (videoRun m s stop_button opened reads).releases = 1 := by
  cases opened with
  | false => simp [videoRun]
  | true =>
    simp only [videoRun, if_true]
    induction reads with
    | nil => simp [videoLoop, readFailExit]
    | cons r rest ih =>
      cases r <;> cases stop_button <;>
        simp_all [videoLoop, cv2Read, readFailExit]

/-- **C1 (amended).** For a finite video source of `N` readable frames
followed by exhaustion and no Stop signal, the run emits exactly `N`
(original, annotated) pairs and releases the handle once — but the code does
not treat EOF as a distinct, clean `Stopped` exit: the EOF run surfaces the
`"Failed to read frame."` warning (the spec's `Failed` indicator) and is
observationally identical to the run in which the same position yields an
I/O read error, because `cap.read()` collapses both to `success = false`. -/
theorem finite_video_emissions_and_eof_collapse (m : ModelCall → Frame)
    (s : InferenceState) (frames : List Frame) :
    (videoRun m s false true
        (frames.map ReadOutcome.ok ++ [ReadOutcome.eof])).emissions.length
      = frames.length ∧
    (videoRun m s false true
        (frames.map ReadOutcome.ok ++ [ReadOutcome.eof])).releases = 1 ∧
    (videoRun m s false true
        (frames.map ReadOutcome.ok ++ [ReadOutcome.eof])).warnings
      = ["Failed to read frame."] ∧
    videoRun m s false true (frames.map ReadOutcome.ok ++ [ReadOutcome.eof])
      = videoRun m s false true
          (frames.map ReadOutcome.ok ++ [ReadOutcome.readErr]) := by
  have h1 := videoLoop_ok_append m s frames ReadOutcome.eof rfl
  have h2 := videoLoop_ok_append m s frames ReadOutcome.readErr rfl
  refine ⟨?_, ?_, ?_, ?_⟩ <;> simp [videoRun, h1, h2]

/-- **C1 (counterexample).** A one-readable-frame video that then reaches
normal end-of-file: the claim says EOF transitions to `Stopped`, never
`Failed`, while a read error (distinct from EOF) transitions to `Failed`.
The code instead surfaces the failure warning `"Failed to read frame."` on
plain EOF, and the EOF run is *equal*, as a whole observable trace, to the
run where the second read is an I/O error — no component of the program's
behaviour separates the two, so EOF is not given the distinct non-failure
exit the claim describes. -/
theorem eof_run_indistinguishable_from_error_run :
    (videoRun (fun _ => 0) cfgVideo false true
        [ReadOutcome.ok 5, ReadOutcome.eof]).warnings
      = ["Failed to read frame."] ∧
    videoRun (fun _ => 0) cfgVideo false true
        [ReadOutcome.ok 5, ReadOutcome.eof]
      = videoRun (fun _ => 0) cfgVideo false true
          [ReadOutcome.ok 5, ReadOutcome.readErr] := by
  exact ⟨rfl, rfl⟩

/-- **C3 (counterexample).** The claim says each iteration emits the
(raw, annotated) pair to the display sink *first* and only afterwards
re-checks cancellation, so a Stop observed at the first iteration would still
yield that iteration's emission (at most `k+1` emissions with `k = 0`, i.e.
exactly the in-flight frame).  In the code the Stop check (lines 234-236)
precedes the emission (lines 238-239): with the Stop signal set and two
readable frames available, the run performs the first read and inference
(`calls` has one entry) but emits *nothing*, releases the handle once and
terminates through `st.stop()`. -/
theorem stop_checked_before_emission :
    videoRun (fun _ => 0) cfgVideo true true
        [ReadOutcome.ok 5, ReadOutcome.ok 6]
      = { emissions := []
          calls := [inferenceCall cfgVideo 5]
          warnings := []
          errors := []
          releases := 1
          stStopCalled := true
          stopButtonCreated := true } := by
  rfl

/-- **C3 (amended).** In every iteration of the Running loop the cancellation
flag is tested *after* inference and rendering but *before* the emission:
whenever the Stop flag is set and a frame is readable, the run performs
exactly one read and one inference, emits nothing (the in-flight pair is
dropped), releases the source handle exactly once, and terminates through
`st.stop()` before the next iteration begins — so a set Stop signal bounds
the run at the one in-flight inference with at most `k` (not `k+1`)
emissions. -/
theorem stop_signal_terminates_without_emission (m : ModelCall → Frame)
    (s : InferenceState) (f : Frame) (rest : List ReadOutcome) :
    videoRun m s true true (ReadOutcome.ok f :: rest)
      = { emissions := []
          calls := [inferenceCall s f]
          warnings := []
          errors := []
          releases := 1
          stStopCalled := true
          stopButtonCreated := true } := by
  simp [videoRun, videoLoop, cv2Read]

/-- A run configuration for an uploaded still image with tracking off. -/
def cfgImage : InferenceState :=
  source_upload none (some 9) (sidebar ⟨"image", "No", 1 / 4, 9 / 20⟩ (initState none))

/-- A run configuration for an uploaded still image with tracking enabled. -/
def cfgImageTrk : InferenceState :=
  source_upload none (some 3) (sidebar ⟨"image", "Yes", 1 / 2, 1 / 2⟩ (initState none))

/-- **C4.** For every run configuration with confidence and IoU in `[0, 1]`
and an arbitrary class-index list, starting a run with a still-image source
(an uploaded image present) performs exactly one inference call and exactly
one (original, annotated) emission, creates no Stop button, opens no capture,
and terminates normally right after the emission — the spec's immediate
`Running → Stopped` transition. -/
theorem image_run_single_emission (decode : ImgBytes → Frame)
    (m : ModelCall → Frame) (s : InferenceState) (img : ImgBytes)
    (opened stop_button : Bool) (reads : List ReadOutcome)
    (hsrc : s.source = some "image") (himg : s.image_data = some img)
    (hc0 : 0 ≤ s.conf) (hc1 : s.conf ≤ 1) (hi0 : 0 ≤ s.iou) (hi1 : s.iou ≤ 1) :
    startRun decode m s opened stop_button reads
      = Except.ok
          { emissions :=
              [(decode img,
                m (ModelCall.detect (decode img) s.conf s.iou s.selected_ind))]
            calls := [ModelCall.detect (decode img) s.conf s.iou s.selected_ind]
            warnings := []
            errors := []
            releases := 0
            stStopCalled := false
            stopButtonCreated := false } := by
  simp [startRun, hsrc, himg]

/-- Witness for C4 at the concrete fixture `cfgImage` (image payload `9`,
sliders at their defaults `0.25` and `0.45`, empty class list). -/
theorem image_run_single_emission_witness :
    (cfgImage.source = some "image" ∧ cfgImage.image_data = some 9 ∧
      (0 : ℚ) ≤ cfgImage.conf ∧ cfgImage.conf ≤ 1 ∧
      (0 : ℚ) ≤ cfgImage.iou ∧ cfgImage.iou ≤ 1) ∧
    startRun (fun b => b) (fun _ => 0) cfgImage true false []
      = Except.ok
          { emissions := [(9, 0)]
            calls := [ModelCall.detect 9 (1 / 4) (9 / 20) []]
            warnings := []
            errors := []
            releases := 0
            stStopCalled := false
            stopButtonCreated := false } := by
  have hc : cfgImage.conf = 1 / 4 := rfl
  have hi : cfgImage.iou = 9 / 20 := rfl
  refine ⟨⟨rfl, rfl, ?_, ?_, ?_, ?_⟩, ?_⟩
  · rw [hc]; norm_num
  · rw [hc]; norm_num
  · rw [hi]; norm_num
  · rw [hi]; norm_num
  · exact image_run_single_emission (fun b => b) (fun _ => 0) cfgImage 9
      true false [] rfl rfl (by rw [hc]; norm_num) (by rw [hc]; norm_num)
      (by rw [hi]; norm_num) (by rw [hi]; norm_num)

/-- **C10.** If the source kind is "image" and no image file was uploaded
before Start, the run crashes with an `AttributeError`: `__init__` never
assigns `self.image_data`, `source_upload` assigns it only when an upload is
present, and the Start handler reads `self.image_data` unconditionally on the
image path (line 202).  This holds for any CLI model argument, any tracking
radio value, any slider values, and any video/capture environment. -/
theorem image_without_upload_raises_attribute_error
    (decode : ImgBytes → Frame) (m : ModelCall → Frame) (mp : Option String)
    (trk : String) (c i : ℚ) (vid_upload : Option Nat)
    (opened stop_button : Bool) (reads : List ReadOutcome) :
    startRun decode m
        (source_upload vid_upload none (sidebar ⟨"image", trk, c, i⟩ (initState mp)))
        opened stop_button reads
      = Except.error PyErr.attributeError := by
  simp [startRun, source_upload, sidebar, initState]

/-- **C6 (counterexample).** The claim covers *every* per-iteration step
(the spec's step 2 applies uniformly to image-as-single-frame and to
streams) and says that with tracking enabled the orchestrator calls
`track(..., persist=true)`.  On the still-image path the code ignores the
tracking radio entirely: with `enable_trk = "Yes"` it still calls plain
detection (line 208) — the recorded call is `detect`, not `track`. -/
theorem image_branch_ignores_tracking_flag :
    cfgImageTrk.enable_trk = some "Yes" ∧
    startRun (fun b => b) (fun _ => 0) cfgImageTrk true false []
      = Except.ok
          { emissions := [(3, 0)]
            calls := [ModelCall.detect 3 (1 / 2) (1 / 2) []]
            warnings := []
            errors := []
            releases := 0
            stStopCalled := false
            stopButtonCreated := false } := by
  exact ⟨rfl, rfl⟩

/-- **C6 (amended).** In every iteration of the video/webcam stream loop the
inference mode is selected solely from the tracking radio:
`track(frame, conf, iou, classes, persist=true)` when it is "Yes", else
`detect(frame, conf, iou, classes)`, with the configured confidence, IoU and
class indices passed through unchanged — every call recorded by a no-stop
stream run is `inferenceCall`.  The still-image path, however, always calls
`detect`, ignoring the tracking flag. -/
theorem stream_mode_selected_by_tracking_flag (m : ModelCall → Frame)
    (s : InferenceState) (frames : List Frame) (f : Frame)
    (decode : ImgBytes → Frame) (img : ImgBytes)
    (opened stop_button : Bool) (reads : List ReadOutcome) :
    (videoRun m s false true
        (frames.map ReadOutcome.ok ++ [ReadOutcome.eof])).calls
      = frames.map (inferenceCall s) ∧
    inferenceCall { s with enable_trk := some "Yes" } f
      = ModelCall.track f s.conf s.iou s.selected_ind true ∧
    inferenceCall { s with enable_trk := some "No" } f
      = ModelCall.detect f s.conf s.iou s.selected_ind ∧
    startRun decode m { s with source := some "image", image_data := some img }
        opened stop_button reads
      = Except.ok
          { emissions :=
              [(decode img,
                m (ModelCall.detect (decode img) s.conf s.iou s.selected_ind))]
            calls := [ModelCall.detect (decode img) s.conf s.iou s.selected_ind]
            warnings := []
            errors := []
            releases := 0
            stStopCalled := false
            stopButtonCreated := false } := by
  refine ⟨?_, ?_, ?_, ?_⟩
  · have h := videoLoop_ok_append m s frames ReadOutcome.eof rfl
    simp [videoRun, h]
  · simp [inferenceCall]
  · simp [inferenceCall]
  · simp [startRun]

/-- **C5 (counterexample).** Launching with the single CLI argument
`"YOLO11m_CBAM"` stores it in `model_path`, but `configure` resolves and
loads the UI selectbox choice — which defaults to the *first* table entry,
`"YOLO11m_baseline"` — and its entire outcome is equal to the outcome of a
launch with no argument at all: the CLI model identifier pre-selects
nothing. -/
theorem cli_model_argument_not_preselected :
    mainModelArg ["streamlit_detection_OP.py", "YOLO11m_CBAM"]
      = some "YOLO11m_CBAM" ∧
    (initState (mainModelArg ["streamlit_detection_OP.py", "YOLO11m_CBAM"])).model_path
      = some "YOLO11m_CBAM" ∧
    (configure (some 20000000) (fun _ => none) 0
        (initState (mainModelArg ["streamlit_detection_OP.py", "YOLO11m_CBAM"]))).selected
      = "YOLO11m_baseline" ∧
    configure (some 20000000) (fun _ => none) 0
        (initState (mainModelArg ["streamlit_detection_OP.py", "YOLO11m_CBAM"]))
      = configure (some 20000000) (fun _ => none) 0 (initState none) := by
  exact ⟨rfl, rfl, rfl, rfl⟩

/-- **C5 (amended).** The entry point stores the optional CLI argument in
`model_path` (`sys.argv[1]` when present, `None` otherwise), but `configure`
never consults it: its outcome is identical for any two object states, and
the model that is resolved and loaded is always the UI selectbox choice from
the fixed `GDRIVE_MODELS` table (defaulting to its first entry).  Model
selection is therefore always deferred to the UI, argument or not. -/
theorem configure_ignores_cli_model_path (fetchSize : Option Nat)
    (fs : String → Option Nat) (ui_choice : Nat) (s1 s2 : InferenceState)
    (prog modelArg : String) (rest : List String) :
    configure fetchSize fs ui_choice s1 = configure fetchSize fs ui_choice s2 ∧
    mainModelArg (prog :: modelArg :: rest) = some modelArg ∧
    (initState (some modelArg)).model_path = some modelArg ∧
    (configure fetchSize fs ui_choice s1).selected
      = (GDRIVE_MODELS.map Prod.fst).getD ui_choice "YOLO11m_baseline" ∧
    (configure fetchSize fs ui_choice s1).load_path
      = modelPath ((GDRIVE_MODELS.map Prod.fst).getD ui_choice "YOLO11m_baseline") := by
  refine ⟨rfl, ?_, rfl, rfl, rfl⟩
  unfold mainModelArg
  have h : 1 < (prog :: modelArg :: rest).length := by
    simp only [List.length_cons]
    omega
  rw [if_pos h]
  rfl

/-- **C9.** Resolving a model whose artifact already exists at
`models/<name>.pt` (any cached size) performs no remote fetch and leaves the
filesystem untouched: resolution is idempotent by path existence, and the
cached artifact is reused as-is. -/
theorem resolve_idempotent_by_presence (fetchSize : Option Nat)
    (fs : String → Option Nat) (file_id name : String) (sz : Nat)
    (h : fs (modelPath name) = some sz) :
    download_from_gdrive fetchSize fs file_id name
      = { fs := fs
          fetches := 0
          console := ["already exists. Skipping download."]
          raised := false } := by
  unfold download_from_gdrive
  rw [h]

/-- A filesystem already holding a 20 MB cached artifact for
`YOLO11m_CBAM`. -/
def fsCached : String → Option Nat :=
  fun p => if p = modelPath "YOLO11m_CBAM" then some 20000000 else none

/-- Witness for C9: with the `YOLO11m_CBAM` artifact cached, a second
resolve fetches nothing and keeps the filesystem as-is. -/
theorem resolve_idempotent_by_presence_witness :
    fsCached (modelPath "YOLO11m_CBAM") = some 20000000 ∧
    download_from_gdrive (some 123) fsCached
        "1jKIStEJRGLGhvEPtAx3tRf8O4VLLwwdB" "YOLO11m_CBAM"
      = { fs := fsCached
          fetches := 0
          console := ["already exists. Skipping download."]
          raised := false } :=
  ⟨rfl,
    resolve_idempotent_by_presence (some 123) fsCached
      "1jKIStEJRGLGhvEPtAx3tRf8O4VLLwwdB" "YOLO11m_CBAM" 20000000 rfl⟩

/-- **C8 (counterexample).** Fetching `YOLO11m_CBAM` onto an empty
filesystem where the fetch leaves only a 500-byte artifact (below the 10000
byte sanity threshold): the corrupted artifact *is* removed (the one part of
the claim that holds), but no error reaches the caller (`raised = false`,
only console prints record the failure), and `configure` proceeds
unconditionally to hand `models/YOLO11m_CBAM.pt` to the `YOLO` loader — the
resolver does not fail with a `ModelUnavailable`-style error and does not
prevent the run from starting. -/
theorem small_artifact_resolver_swallows_error :
    (download_from_gdrive (some 500) (fun _ => none)
        "1jKIStEJRGLGhvEPtAx3tRf8O4VLLwwdB" "YOLO11m_CBAM").raised = false ∧
    (download_from_gdrive (some 500) (fun _ => none)
        "1jKIStEJRGLGhvEPtAx3tRf8O4VLLwwdB" "YOLO11m_CBAM").fetches = 1 ∧
    (download_from_gdrive (some 500) (fun _ => none)
        "1jKIStEJRGLGhvEPtAx3tRf8O4VLLwwdB" "YOLO11m_CBAM").fs
        (modelPath "YOLO11m_CBAM") = none ∧
    (download_from_gdrive (some 500) (fun _ => none)
        "1jKIStEJRGLGhvEPtAx3tRf8O4VLLwwdB" "YOLO11m_CBAM").console
      = ["Downloading", "download failed or incomplete. Try manual download."] ∧
    (configure (some 500) (fun _ => none) 3 (initState none)).load_path
      = modelPath "YOLO11m_CBAM" := by
  exact ⟨rfl, rfl, rfl, rfl, rfl⟩

/-- **C8 (amended).** On a failed or undersized fetch the resolver only
prints console diagnostics: when the downloaded artifact is at most the
10000-byte threshold it is removed from disk and the function returns
normally; when the fetch leaves no file at all, the cleanup `os.remove`
raises `FileNotFoundError`, which the `except` clause swallows into a
"Download error" print.  In every case nothing is raised to the caller, and
`configure` proceeds unconditionally to attempt `YOLO(models/<selected>.pt)`
— any failure surfaces from the loader, not as a resolver error that stops
the run from starting. -/
theorem resolver_failure_not_fatal (fs : String → Option Nat)
    (file_id name : String) (n : Nat) (fetchSize : Option Nat)
    (ui_choice : Nat) (s : InferenceState)
    (habs : fs (modelPath name) = none) (hsmall : n ≤ 10000) :
    (download_from_gdrive (some n) fs file_id name).raised = false ∧
    (download_from_gdrive (some n) fs file_id name).fs (modelPath name) = none ∧
    (download_from_gdrive (some n) fs file_id name).console
      = ["Downloading", "download failed or incomplete. Try manual download."] ∧
    (download_from_gdrive none fs file_id name).raised = false ∧
    (download_from_gdrive none fs file_id name).console
      = ["Downloading", "Download error"] ∧
    (configure fetchSize fs ui_choice s).load_path
      = modelPath ((GDRIVE_MODELS.map Prod.fst).getD ui_choice "YOLO11m_baseline") := by
  have hng : ¬n > 10000 := by omega
  refine ⟨?_, ?_, ?_, ?_, ?_, rfl⟩ <;>
    simp [download_from_gdrive, habs, hng, fsUpdate]

/-- Witness for C8 (amended): empty filesystem, a 500-byte fetch result for
`YOLO11m_ECA`. -/
theorem resolver_failure_not_fatal_witness :
    ((fun _ : String => (none : Option Nat)) (modelPath "YOLO11m_ECA") = none ∧
      500 ≤ 10000) ∧
    ((download_from_gdrive (some 500) (fun _ => none)
        "1ZdrB2IcubfM6uJsio4dEOBEcKzlae6-S" "YOLO11m_ECA").raised = false ∧
     (download_from_gdrive (some 500) (fun _ => none)
        "1ZdrB2IcubfM6uJsio4dEOBEcKzlae6-S" "YOLO11m_ECA").fs
        (modelPath "YOLO11m_ECA") = none ∧
     (download_from_gdrive (some 500) (fun _ => none)
        "1ZdrB2IcubfM6uJsio4dEOBEcKzlae6-S" "YOLO11m_ECA").console
      = ["Downloading", "download failed or incomplete. Try manual download."] ∧
     (download_from_gdrive none (fun _ => none)
        "1ZdrB2IcubfM6uJsio4dEOBEcKzlae6-S" "YOLO11m_ECA").raised = false ∧
     (download_from_gdrive none (fun _ => none)
        "1ZdrB2IcubfM6uJsio4dEOBEcKzlae6-S" "YOLO11m_ECA").console
      = ["Downloading", "Download error"] ∧
     (configure none (fun _ => none) 0 (initState none)).load_path
      = modelPath ((GDRIVE_MODELS.map Prod.fst).getD 0 "YOLO11m_baseline")) :=
  ⟨⟨rfl, by norm_num⟩,
    resolver_failure_not_fatal (fun _ => none)
      "1ZdrB2IcubfM6uJsio4dEOBEcKzlae6-S" "YOLO11m_ECA" 500 none 0
      (initState none) rfl (by norm_num)⟩

/-- **C7 (code evaluated at the failing input).** The orchestrator's class
list is `selected_ind`, initialised to `[]` and never modified by any UI
step (the upstream class multiselect is absent), so every model call carries
the literal empty list — not a "no filter" null.  Under the model
capability's convention (`classFilter`), a supplied empty list retains *no*
detections while only the absent filter (`none`) retains all of them: the
run silently drops every detection, contrary to the claim that an empty
classIndices set means "no class filter". -/
theorem empty_class_list_drops_every_detection :
    cfgVideo.selected_ind = [] ∧
    (videoRun (fun _ => 0) cfgVideo false true
        [ReadOutcome.ok 5, ReadOutcome.eof]).calls
      = [inferenceCall cfgVideo 5] ∧
    (inferenceCall cfgVideo 5).classesArg = [] ∧
    (∀ dets : List Nat, classFilter (some []) dets = []) ∧
    classFilter none [0, 1, 2] = [0, 1, 2] := by
  refine ⟨rfl, rfl, rfl, ?_, rfl⟩
  intro dets
  induction dets with
  | nil => rfl
  | cons d ds ih => simp [classFilter, List.filter] at ih ⊢

end StreamlitDetection
